import Mathlib

set_option maxHeartbeats 1000000

/-!
Verification of the fleet communication and OTA orchestration subsystem of
the Tambula-Media repository (src/esp_listener_ota.py, src/trigger_ota_multi.py).

The Python code is shallowly embedded: decoded JSON objects are association
lists in insertion order (Python dicts preserve insertion order), handler
locals and the shared stats counters are explicit state, and each iteration
of the per-port read loop of handle_device is a pure step function from an
incoming line (its raw text plus the result of json.loads, the parser being
treated as an oracle) to a new state and a trace of observable effects
(frames written to the port, HTTP posts, operator prompts, log entries and
caught exceptions).  Operator input, wall-clock time and the HTTP outcome
are supplied by an environment record.
-/

namespace Esp

/-- Python values as they appear in decoded JSON objects and in handler
locals.  JSON null and the Python None object are both `vnone`. -/
inductive PyVal
  | vnone
  | vint (n : Int)
  | vstr (s : String)
  deriving DecidableEq

/-- A decoded JSON object: an association list in insertion order. -/
abbrev Payload := List (String × PyVal)

/-- Lookup in an association list (Python dict access). -/
def alistLookup {α : Type} : List (String × α) → String → Option α
  | [], _ => none
  | q :: t, k => if q.1 = k then some q.2 else alistLookup t k

/-- Python membership test `k in d`. -/
def hasKey (p : Payload) (k : String) : Bool := (alistLookup p k).isSome

/-- Python `d.get(k)`: None when the key is absent. -/
def pyGet (p : Payload) (k : String) : PyVal := (alistLookup p k).getD .vnone

/-- Python `d.get(k, default)`. -/
def pyGetD (p : Payload) (k : String) (d : PyVal) : PyVal := (alistLookup p k).getD d

/-- Python `d[k] = v`: overwrite in place when the key is present, append
otherwise (dicts keep the original position of an existing key). -/
def setKey (p : Payload) (k : String) (v : PyVal) : Payload :=
  if hasKey p k then p.map (fun q => if q.1 = k then (k, v) else q) else p ++ [(k, v)]

/-- Python `del d[k]`. -/
def removeKey {α : Type} : List (String × α) → String → List (String × α)
  | [], _ => []
  | q :: t, k => if q.1 = k then removeKey t k else q :: removeKey t k

/-- Python substring test `pat in s`, on character lists. -/
def isInfixList (pat : List Char) : List Char → Bool
  | [] => pat.isEmpty
  | c :: t => pat.isPrefixOf (c :: t) || isInfixList pat t

/-- Python substring test `pat in s` on strings. -/
def pyIn (pat s : String) : Bool := isInfixList pat.data s.data

/-- Python `s.startswith(pre)`. -/
def pyStartsWith (s pre : String) : Bool := pre.data.isPrefixOf s.data

def pyStripChars (l : List Char) : List Char :=
  ((l.dropWhile Char.isWhitespace).reverse.dropWhile Char.isWhitespace).reverse

/-- Python `s.strip()` (whitespace removed from both ends). -/
def pyStrip (s : String) : String := String.mk (pyStripChars s.data)

/-- Python `s.upper()` (ASCII letters). -/
def pyUpper (s : String) : String := String.mk (s.data.map Char.toUpper)

/-- Position of the first occurrence of `sep`: characters before it and
characters after it, or none when `sep` does not occur. -/
def splitFirst (sep : List Char) : List Char → Option (List Char × List Char)
  | [] => none
  | c :: t =>
    if sep.isPrefixOf (c :: t) then some ([], (c :: t).drop sep.length)
    else
      match splitFirst sep t with
      | some q => some (c :: q.1, q.2)
      | none => none

/-- Python `s.split(sep)[1]`: the chunk between the first and the second
occurrence of `sep` (the rest of the string when `sep` occurs once);
none models the IndexError raised when `sep` does not occur at all. -/
def pySplitIndex1 (sep s : String) : Option String :=
  match splitFirst sep.data s.data with
  | none => none
  | some q =>
    match splitFirst sep.data q.2 with
    | none => some (String.mk q.2)
    | some r => some (String.mk r.1)

def digitsVal (ds : List Char) : Option Nat :=
  if ds.isEmpty then none
  else if ds.all Char.isDigit then
    some (ds.foldl (fun a c => a * 10 + (c.toNat - 48)) 0)
  else none

/-- Python `int(s)` on a decimal string: surrounding whitespace is allowed,
then an optional sign and a nonempty digit run; none models ValueError. -/
def pyInt (s : String) : Option Int :=
  match pyStripChars s.data with
  | '-' :: ds => (digitsVal ds).map (fun n => -(n : Int))
  | '+' :: ds => (digitsVal ds).map (fun n => (n : Int))
  | ds => (digitsVal ds).map (fun n => (n : Int))

/-- The self.stats counters of FinalESP32Manager (lines 78-85). -/
structure Stats where
  answers_processed : Nat
  errors : Nat
  ota_updates : Nat
  ota_successes : Nat
  ota_failures : Nat
  deriving DecidableEq

def Stats.start : Stats := ⟨0, 0, 0, 0, 0⟩

/-- Log entries emitted by handle_wifi_ota_status (lines 160-181).  The
function has no branch for any other OTA value: nothing is logged there. -/
inductive LogEv
  | otaStarting (did : PyVal)
  | otaDownloading (did : PyVal)
  | otaFlashing (did : PyVal)
  | otaSuccess (did : PyVal)
  | otaError (did : PyVal) (msg : PyVal)
  deriving DecidableEq

/-- handle_wifi_ota_status (lines 160-181): dispatch on the OTA value of a
status frame, returning the updated counters and the log entries emitted. -/
def handle_wifi_ota_status (stats : Stats) (payload : Payload) : Stats × List LogEv :=
  let device_id := pyGet payload "Did"
  let ota_status := pyGet payload "OTA"
  let message := pyGetD payload "Msg" (.vstr "")
  if ota_status = .vstr "OTA_STARTING" then (stats, [.otaStarting device_id])
  else if ota_status = .vstr "OTA_DOWNLOADING" then (stats, [.otaDownloading device_id])
  else if ota_status = .vstr "OTA_FLASHING" then (stats, [.otaFlashing device_id])
  else if ota_status = .vstr "OTA_SUCCESS" then
    ({ stats with ota_successes := stats.ota_successes + 1 }, [.otaSuccess device_id])
  else if ota_status = .vstr "OTA_ERROR" then
    ({ stats with ota_failures := stats.ota_failures + 1 }, [.otaError device_id message])
  else (stats, [])

/-- self.serial_ports: port name mapped to an open handle (numbered). -/
abbrev SerialPorts := List (String × Nat)

/-- A frame written to a serial port: either a bare text line (the pairing
response) or a JSON object serialized in insertion order, newline-ended. -/
inductive Frame
  | raw (s : String)
  | jsonF (obj : Payload)
  deriving DecidableEq

def API_URL : String := "https://edu.tambulamedia.com/api/questionnaires/answer"

/-- The OTA command object built at lines 141-145. -/
def otaCmdFrame (device_id firmware_url : PyVal) : Payload :=
  [("OTA_CMD", .vstr "WIFI_UPDATE"), ("Did", device_id), ("URL", firmware_url)]

/-- initiate_wifi_ota (lines 128-158): look the port up in serial_ports;
on a miss log and return False with nothing written; on a hit write the
OTA command frame, bump the ota_updates counter and return True.  Result:
(new stats, frames written, return value). -/
def initiate_wifi_ota (ports : SerialPorts) (device_id firmware_url : PyVal)
    (port : String) (stats : Stats) : Stats × List Frame × Bool :=
  match alistLookup ports port with
  | none => (stats, [], false)
  | some _ =>
    ({ stats with ota_updates := stats.ota_updates + 1 },
     [Frame.jsonF (otaCmdFrame device_id firmware_url)], true)

/-- Observable events of one trigger-file iteration in monitor_devices. -/
inductive TrigEv
  | fileRead
  | fileRemoved
  | dispatched (did fw : PyVal) (port : String)
  | logNoPorts
  | logError
  deriving DecidableEq

/-- One iteration of the trigger-file loop of monitor_devices
(lines 677-708) on a single file.  `content` is the result of json.load
(none models the exception raised on malformed content, handled by the
except branch at lines 703-708, which logs and then removes the file).
On a successful parse the file is removed (line 683) before the command is
examined; a well-formed command with an available port is dispatched via
initiate_wifi_ota, after which line 697 bumps ota_updates a second time.
Result: (new stats, events in program order, frames written). -/
def processTriggerFile (ports : SerialPorts) (content : Option Payload)
    (stats : Stats) : Stats × List TrigEv × List Frame :=
  match content with
  | none => (stats, [.logError, .fileRemoved], [])
  | some cmd =>
    if hasKey cmd "device_id" && hasKey cmd "firmware" then
      match ports with
      | [] => (stats, [.fileRead, .fileRemoved, .logNoPorts], [])
      | q :: _ =>
        let r := initiate_wifi_ota ports (pyGet cmd "device_id") (pyGet cmd "firmware")
          q.1 stats
        ({ r.1 with ota_updates := r.1.ota_updates + 1 },
         [.fileRead, .fileRemoved,
          .dispatched (pyGet cmd "device_id") (pyGet cmd "firmware") q.1],
         r.2.1)
    else (stats, [.fileRead, .fileRemoved], [])

/-- An HTTP POST attempt: target url and JSON body. -/
structure Post where
  url : String
  body : Payload
  deriving DecidableEq

/-- Outcome of one HTTP POST: a status with the parse result of the
response text (none models a body json.loads failure), or a transport
error (the exception caught at line 488). -/
inductive HttpOutcome
  | response (status : Nat) (body : Option Payload)
  | transportError
  deriving DecidableEq

/-- Python str() of a value inside an f-string. -/
def pyStr : PyVal → String
  | .vnone => "None"
  | .vint n => toString n
  | .vstr s => s

/-- URL construction of process_answer (lines 467-469): the deviceId query
parameter is appended exactly when the payload has a Did key. -/
def answerUrl (payload : Payload) : String :=
  if hasKey payload "Did" then API_URL ++ "?deviceId=" ++ pyStr (pyGet payload "Did")
  else API_URL

/-- send_device_response (lines 492-513): the response frame written back
to the device, keys in insertion order Id, c, Did.  The terminal id falls
back to the backend-supplied id exactly when d.get of Id returned the
sentinel string unknown. -/
def send_device_response (original_payload api_response : Payload) : Payload :=
  let terminal_id := pyGetD original_payload "Id" (.vstr "unknown")
  let device_id := pyGetD original_payload "Did" (.vint 0)
  [("Id", if terminal_id = .vstr "unknown" then pyGetD api_response "id" (.vint 0)
          else terminal_id),
   ("c", pyGetD api_response "code" (.vint 0)),
   ("Did", device_id)]

/-- Effects of one process_answer call: HTTP posts issued and frames
written back to the port. -/
structure RelayFx where
  posts : List Post
  frames : List Frame
  deriving DecidableEq

/-- process_answer (lines 459-490): add the session id to a copy of the
payload, POST it, and on HTTP 200 with a parseable body bump
answers_processed and write the response frame back; any other outcome
(non-200 status, unparseable 200 body, transport error) bumps the error
counter and writes nothing.  Exactly one POST is attempted. -/
def process_answer (session_id : String) (payload : Payload) (out : HttpOutcome)
    (stats : Stats) : Stats × RelayFx :=
  let pws := setKey payload "sessionId" (.vstr session_id)
  let post : Post := ⟨answerUrl payload, pws⟩
  match out with
  | .transportError => ({ stats with errors := stats.errors + 1 }, ⟨[post], []⟩)
  | .response status body =>
    if status = 200 then
      match body with
      | some rd =>
        ({ stats with answers_processed := stats.answers_processed + 1 },
         ⟨[post], [Frame.jsonF (send_device_response payload rd)]⟩)
      | none => ({ stats with errors := stats.errors + 1 }, ⟨[post], []⟩)
    else ({ stats with errors := stats.errors + 1 }, ⟨[post], []⟩)

/-- Per-iteration state of handle_device (lines 186-457): the pairing
locals of lines 202-205 plus the handler-local device_id, which Python
leaves unbound (`none`) until the CONFIG branch (line 424) or the answer
branch (line 437) assigns it, plus the shared counters. -/
structure HState where
  in_pairing_mode : Bool
  pairing_device_id : Option String
  pairing_mac : Option String
  pairing_cooldown_until : Nat
  device_id : Option PyVal
  stats : Stats
  deriving DecidableEq

def HState.start : HState := ⟨false, none, none, 0, none, Stats.start⟩

/-- One inbound line: its raw text and the result of json.loads on it
(the JSON parser is treated as an oracle; only lines starting with a brace
are ever parsed). -/
structure Line where
  raw : String
  json : Option Payload
  deriving DecidableEq

/-- Environment of one loop iteration: current time, the scripted operator
responses consumed by get_user_input_with_timeout (none is a timeout),
the outcome of a potential HTTP POST, and the current session id. -/
structure Env where
  now : Nat
  opInputs : List (Option String)
  http : HttpOutcome
  sessionId : String

/-- Observable effects of one loop iteration. -/
structure Effects where
  promptIssued : Bool
  writes : List Frame
  posts : List Post
  answerCalls : List Payload
  logs : List LogEv
  errorCaught : Bool
  deriving DecidableEq

/-- No effect at all (a skipped line). -/
def Effects.skip : Effects := ⟨false, [], [], [], [], false⟩

/-- Consume one scripted operator response; an exhausted script times out. -/
def takeInput : List (Option String) → Option String × List (Option String)
  | [] => (none, [])
  | i :: t => (i, t)

/-- Python truthiness of the result of get_user_input_with_timeout:
None and the empty string are falsy. -/
def truthy : Option String → Bool
  | none => false
  | some s => if s = "" then false else true

/-- The test `r and r.strip().upper() in [Y, YES]` used by the sub-prompts. -/
def yesish (r : Option String) : Bool :=
  if truthy r then
    let u := pyUpper (pyStrip (r.getD ""))
    if u = "Y" then true else if u = "YES" then true else false
  else false

/-- The expression `int(pairing_device_id) if pairing_device_id else fb`
(lines 303 and 335): none models the ValueError raised by int() on a
non-numeric stored pairing id. -/
def didFromPairing (pid : Option String) (fb : Int) : Option Int :=
  match pid with
  | none => some fb
  | some p => if p = "" then some fb else pyInt p

def gpioKeys : List String :=
  ["RedPin", "GreenPin", "YellowPin", "ButtonA", "ButtonB", "ButtonC", "ButtonD"]

/-- The seven GPIO pin prompts (lines 339-359): one operator input per pin;
a timeout, an empty, non-numeric or out-of-range entry stops the loop with
all_valid false.  Returns (all_valid, config so far, remaining inputs). -/
def gpioLoop : List String → List (Option String) → Payload →
    Bool × Payload × List (Option String)
  | [], ins, acc => (true, acc, ins)
  | k :: ks, ins, acc =>
    let t := takeInput ins
    if truthy t.1 then
      match pyInt (t.1.getD "") with
      | some n =>
        if 0 ≤ n ∧ n ≤ 48 then gpioLoop ks t.2 (acc ++ [(k, .vint n)])
        else (false, acc, t.2)
      | none => (false, acc, t.2)
    else (false, acc, t.2)

/-- The WiFi credential sub-prompt (lines 370-391).  Returns the frames
written so far plus an abort flag: true models the UnboundLocalError
raised at line 385 when the handler-local device_id was never assigned
before being read into the SET_WIFI_CONFIG frame. -/
def wifiStep (deviceId : Option PyVal) (ins : List (Option String))
    (fr : List Frame) : List Frame × Bool :=
  let t0 := takeInput ins
  if yesish t0.1 then
    let t1 := takeInput t0.2
    if truthy t1.1 then
      let t2 := takeInput t1.2
      if truthy t2.1 then
        match deviceId with
        | none => (fr, true)
        | some dv =>
          (fr ++ [Frame.jsonF
            [("CONFIG_CMD", .vstr "SET_WIFI_CONFIG"), ("Did", dv),
             ("SSID", .vstr (pyStrip (t1.1.getD ""))),
             ("Password", .vstr (pyStrip (t2.1.getD "")))]], false)
      else (fr, false)
    else (fr, false)
  else (fr, false)

/-- The configuration prompts after an accepted pairing (lines 284-391):
device-id sub-prompt, GPIO sub-prompt, WiFi sub-prompt, in that order.
Returns frames written and an abort flag (an exception escaping the
branch, to be caught by the per-iteration handler at line 442). -/
def acceptedFlow (s : HState) (ins : List (Option String)) : List Frame × Bool :=
  let tdi := takeInput ins
  let step1 : List Frame × List (Option String) :=
    if yesish tdi.1 then
      let tn := takeInput tdi.2
      if truthy tn.1 then
        match pyInt (tn.1.getD "") with
        | some n =>
          if 1 ≤ n ∧ n ≤ 255 then
            match didFromPairing s.pairing_device_id n with
            | some d =>
              ([Frame.jsonF [("CONFIG_CMD", .vstr "SET_DEVICE_ID"),
                             ("Did", .vint d), ("DeviceId", .vint n)]], tn.2)
            | none => ([], tn.2)
          else ([], tn.2)
        | none => ([], tn.2)
      else ([], tn.2)
    else ([], tdi.2)
  let tg := takeInput step1.2
  if yesish tg.1 then
    match didFromPairing s.pairing_device_id 0 with
    | none => (step1.1, true)
    | some d0 =>
      let g := gpioLoop gpioKeys tg.2
        [("CONFIG_CMD", .vstr "SET_GPIO_CONFIG"), ("Did", .vint d0)]
      let fr2 := if g.1 then step1.1 ++ [Frame.jsonF g.2.1] else step1.1
      wifiStep s.device_id g.2.2 fr2
  else wifiStep s.device_id tg.2 step1.1

/-- The blocking accept/reject prompt branch (lines 262-402), entered on a
Type-Y instruction line while in pairing mode.  The raw operator response
(stripped, uppercased) is written to the port when truthy; Y or YES runs
the configuration prompts.  On a normal finish lines 398-401 leave pairing
mode, start the 5 second cooldown and clear the collected ids; when the
accepted flow raises, those lines are skipped, so pairing mode and the old
cooldown stamp survive and the exception is caught at line 442. -/
def pairingPrompt (now : Nat) (ins : List (Option String)) (s : HState) :
    HState × Effects :=
  let t0 := takeInput ins
  if truthy t0.1 then
    let resp := pyUpper (pyStrip (t0.1.getD ""))
    if resp = "Y" ∨ resp = "YES" then
      let r := acceptedFlow s t0.2
      if r.2 then
        (s, ⟨true, Frame.raw resp :: r.1, [], [], [], true⟩)
      else
        ({ s with in_pairing_mode := false, pairing_cooldown_until := now + 5,
                  pairing_device_id := none, pairing_mac := none },
         ⟨true, Frame.raw resp :: r.1, [], [], [], false⟩)
    else
      ({ s with in_pairing_mode := false, pairing_cooldown_until := now + 5,
                pairing_device_id := none, pairing_mac := none },
       ⟨true, [Frame.raw resp], [], [], [], false⟩)
  else
    ({ s with in_pairing_mode := false, pairing_cooldown_until := now + 5,
              pairing_device_id := none, pairing_mac := none },
     ⟨true, [], [], [], [], false⟩)

/-- Normal message processing of a decoded JSON payload (lines 416-441):
OTA status frames go to handle_wifi_ota_status; CONFIG frames assign the
handler-local device_id and log; frames with an Ans or Id key assign the
locals and invoke process_answer. -/
def jsonDispatch (env : Env) (s : HState) (payload : Payload) : HState × Effects :=
  if hasKey payload "OTA" then
    let r := handle_wifi_ota_status s.stats payload
    ({ s with stats := r.1 }, ⟨false, [], [], [], r.2, false⟩)
  else if hasKey payload "CONFIG" then
    ({ s with device_id := some (pyGet payload "Did") }, Effects.skip)
  else if hasKey payload "Ans" || hasKey payload "Id" then
    let s1 := { s with device_id := some (pyGetD payload "Did" (.vstr "unknown")) }
    let r := process_answer env.sessionId payload env.http s1.stats
    ({ s1 with stats := r.1 }, ⟨false, r.2.frames, r.2.posts, [payload], [], false⟩)
  else (s, Effects.skip)

def typeYupper : String := "Type 'Y'"
def typeYlower : String := "Type 'y'"

/-- The cooldown keyword list of lines 225-226. -/
def hasAnyMarker (raw : String) : Bool :=
  pyIn "PAIRING REQUEST" raw || pyIn "Device ID:" raw || pyIn "MAC Address:" raw ||
    pyIn "Do you want to become the mother" raw || pyIn typeYupper raw

/-- One iteration of the handle_device read loop (lines 207-445) on a
non-empty line, in source order: the cooldown skip (only reachable while
in_pairing_mode is set, lines 221-227); the pairing request detector
(line 230, whose second disjunct with the bell emoji is subsumed by the
first); the Device ID, MAC, mother-question and Type-Y branches (gated on
pairing mode); then the JSON path for lines starting with a brace. -/
def handleLine (env : Env) (s : HState) (line : Line) : HState × Effects :=
  if s.in_pairing_mode && decide (env.now < s.pairing_cooldown_until)
      && hasAnyMarker line.raw then
    (s, Effects.skip)
  else if pyIn "PAIRING REQUEST RECEIVED" line.raw then
    ({ s with in_pairing_mode := true, pairing_device_id := none, pairing_mac := none },
     Effects.skip)
  else if s.in_pairing_mode && pyIn "Device ID:" line.raw then
    ({ s with pairing_device_id :=
        match pySplitIndex1 "Device ID:" line.raw with
        | some v => some (pyStrip v)
        | none => s.pairing_device_id }, Effects.skip)
  else if s.in_pairing_mode && pyIn "MAC Address:" line.raw then
    ({ s with pairing_mac :=
        match pySplitIndex1 "MAC Address:" line.raw with
        | some v => some (pyStrip v)
        | none => s.pairing_mac }, Effects.skip)
  else if s.in_pairing_mode && pyIn "Do you want to become the mother" line.raw then
    (s, Effects.skip)
  else if s.in_pairing_mode && (pyIn typeYupper line.raw || pyIn typeYlower line.raw) then
    pairingPrompt env.now env.opInputs s
  else if pyStartsWith line.raw "\x7b" then
    match line.json with
    | none => (s, Effects.skip)
    | some payload => jsonDispatch env s payload
  else (s, Effects.skip)

/-- One scripted loop iteration: the environment it runs under and the
line it reads. -/
structure Input where
  env : Env
  line : Line

/-- Run the read loop over a list of scripted iterations, keeping states. -/
def runLines (s : HState) : List Input → HState
  | [] => s
  | i :: t => runLines (handleLine i.env s i.line).1 t

/-- No pairing marker substring occurs in the raw text of a line. -/
def noPairingText (raw : String) : Prop :=
  pyIn "PAIRING REQUEST" raw = false ∧ pyIn "PAIRING REQUEST RECEIVED" raw = false ∧
  pyIn "Device ID:" raw = false ∧ pyIn "MAC Address:" raw = false ∧
  pyIn "Do you want to become the mother" raw = false ∧
  pyIn typeYupper raw = false ∧ pyIn typeYlower raw = false

instance (raw : String) : Decidable (noPairingText raw) := by
  unfold noPairingText; infer_instance

/-- Python dict assignment self.serial_ports[port] = ser. -/
def setPort (m : SerialPorts) (port : String) (h : Nat) : SerialPorts :=
  if (alistLookup m port).isSome then
    m.map (fun q => if q.1 = port then (port, h) else q)
  else m ++ [(port, h)]

/-- Result of the serial open at lines 192-196: the Serial constructor
either raises (nothing was registered) or yields an open handle which
line 197 registers. -/
inductive OpenResult
  | failed
  | opened (h : Nat)
  deriving DecidableEq

/-- How the handler task ends: the loop exits because running went false,
an exception escapes, or the task is cancelled at an await point (the
per-port read, the operator prompt, or the HTTP call); in every case the
try/finally of lines 190-457 runs the finally block. -/
inductive Termination
  | normalExit
  | loopException
  | cancelledAtAwait
  deriving DecidableEq

/-- The finally block of handle_device (lines 449-457): close the handle
registered under the port, then delete the map entry.  Returns the new
map and the handles closed. -/
def finallyCleanup (m : SerialPorts) (port : String) : SerialPorts × List Nat :=
  match alistLookup m port with
  | some h => (removeKey m port, [h])
  | none => (m, [])

/-- The lifecycle of one handle_device task over the serial_ports map:
open (registering on success, line 197), then terminate in any of the
three ways; the finally block runs regardless. -/
def handlerRun (m : SerialPorts) (port : String) (res : OpenResult)
    (t : Termination) : SerialPorts × List Nat :=
  match t, res with
  | _, .failed => finallyCleanup m port
  | _, .opened h => finallyCleanup (setPort m port h) port

/-! ## Structural lemmas about the step function -/

/-- Every outcome of process_answer carries exactly one POST attempt,
whose body is the payload with the session id injected. -/
theorem process_answer_posts (sid : String) (p : Payload) (out : HttpOutcome)
    (st : Stats) :
    (process_answer sid p out st).2.posts =
      [⟨answerUrl p, setKey p "sessionId" (.vstr sid)⟩] := by
  unfold process_answer
  cases out with
  | transportError => rfl
  | response status body =>
    by_cases h : status = 200
    · cases body <;> simp [h]
    · simp [h]

/-- The JSON dispatch never issues the operator prompt. -/
theorem jsonDispatch_promptFalse (env : Env) (s : HState) (p : Payload) :
    (jsonDispatch env s p).2.promptIssued = false := by
  unfold jsonDispatch
  split
  · rfl
  · split
    · rfl
    · split
      · rfl
      · rfl

/-- The JSON dispatch never changes the pairing-mode flag. -/
theorem jsonDispatch_mode (env : Env) (s : HState) (p : Payload) :
    (jsonDispatch env s p).1.in_pairing_mode = s.in_pairing_mode := by
  unfold jsonDispatch
  split
  · rfl
  · split
    · rfl
    · split
      · rfl
      · rfl

/-- The JSON dispatch leaves the handler-local device_id untouched when
the payload has no CONFIG, Ans or Id key. -/
theorem jsonDispatch_device_id (env : Env) (s : HState) (p : Payload)
    (hc : hasKey p "CONFIG" = false) (ha : hasKey p "Ans" = false)
    (hi : hasKey p "Id" = false) :
    (jsonDispatch env s p).1.device_id = s.device_id := by
  unfold jsonDispatch
  simp only [hc, ha, hi, Bool.or_self, Bool.false_eq_true, if_false]
  split
  · rfl
  · rfl

/-- The pairing prompt branch always issues the operator prompt. -/
theorem pairingPrompt_prompt (now : Nat) (ins : List (Option String)) (s : HState) :
    (pairingPrompt now ins s).2.promptIssued = true := by
  simp only [pairingPrompt]
  split
  · split
    · split
      · rfl
      · rfl
    · rfl
  · rfl

/-- The pairing prompt branch never assigns the handler-local device_id. -/
theorem pairingPrompt_device_id (now : Nat) (ins : List (Option String)) (s : HState) :
    (pairingPrompt now ins s).1.device_id = s.device_id := by
  simp only [pairingPrompt]
  split
  · split
    · split
      · rfl
      · rfl
    · rfl
  · rfl

/-- When a line carries none of the pairing marker substrings, starts with
a brace and parses, the loop iteration is exactly the JSON dispatch. -/
theorem handleLine_json (env : Env) (s : HState) (line : Line) (p : Payload)
    (hmk : noPairingText line.raw) (hst : pyStartsWith line.raw "\x7b" = true)
    (hjs : line.json = some p) :
    handleLine env s line = jsonDispatch env s p := by
  obtain ⟨f1, f2, f3, f4, f5, f6, f7⟩ := hmk
  unfold handleLine
  simp [hasAnyMarker, f1, f2, f3, f4, f5, f6, f7, hst, hjs]

/-- A handler whose pairing-mode flag is down never issues the prompt. -/
theorem handleLine_prompt_mode (env : Env) (s : HState) (line : Line)
    (hm : s.in_pairing_mode = false) :
    (handleLine env s line).2.promptIssued = false := by
  unfold handleLine
  simp only [hm, Bool.false_and, Bool.false_eq_true, if_false]
  split
  · rfl
  · split
    · split
      · rfl
      · exact jsonDispatch_promptFalse env s _
    · rfl

/-- A line without the pairing-request marker cannot raise the
pairing-mode flag. -/
theorem handleLine_mode_origin (env : Env) (s : HState) (line : Line)
    (hm : s.in_pairing_mode = false)
    (hr : pyIn "PAIRING REQUEST RECEIVED" line.raw = false) :
    (handleLine env s line).1.in_pairing_mode = false := by
  unfold handleLine
  simp only [hm, hr, Bool.false_and, Bool.false_eq_true, if_false]
  split
  · split
    · exact hm
    · rw [jsonDispatch_mode env s _]; exact hm
  · exact hm

/-- Over a whole trace without the pairing-request marker, the
pairing-mode flag stays down. -/
theorem runLines_mode_origin (l : List Input) (s : HState)
    (hm : s.in_pairing_mode = false)
    (hr : ∀ i ∈ l, pyIn "PAIRING REQUEST RECEIVED" i.line.raw = false) :
    (runLines s l).in_pairing_mode = false := by
  induction l generalizing s with
  | nil => exact hm
  | cons i t ih =>
    rw [runLines]
    exact ih _ (handleLine_mode_origin i.env s i.line hm (hr i (List.mem_cons_self i t)))
      (fun j hj => hr j (List.mem_cons_of_mem _ hj))

/-- A loop iteration without a CONFIG frame and without an answer frame
leaves the handler-local device_id untouched. -/
theorem handleLine_device_id (env : Env) (s : HState) (line : Line)
    (hj : line.json = none ∨ ∃ p, line.json = some p ∧ hasKey p "CONFIG" = false ∧
      hasKey p "Ans" = false ∧ hasKey p "Id" = false) :
    (handleLine env s line).1.device_id = s.device_id := by
  unfold handleLine
  split
  · rfl
  · split
    · rfl
    · split
      · rfl
      · split
        · rfl
        · split
          · rfl
          · split
            · exact pairingPrompt_device_id env.now env.opInputs s
            · split
              · split
                · rfl
                · rename_i payload heq
                  rcases hj with h | ⟨p, hp, hc, ha, hi⟩
                  · rw [h] at heq; exact absurd heq (by simp)
                  · rw [heq] at hp
                    injection hp with h2
                    subst h2
                    exact jsonDispatch_device_id env s payload hc ha hi
              · rfl

/-- Over a whole trace of frames none of which is a CONFIG or answer
frame, the handler-local device_id keeps its value. -/
theorem runLines_device_id (l : List Input) (s : HState)
    (hj : ∀ i ∈ l, i.line.json = none ∨ ∃ p, i.line.json = some p ∧
      hasKey p "CONFIG" = false ∧ hasKey p "Ans" = false ∧ hasKey p "Id" = false) :
    (runLines s l).device_id = s.device_id := by
  induction l generalizing s with
  | nil => rfl
  | cons i t ih =>
    rw [runLines]
    rw [ih _ (fun j hjm => hj j (List.mem_cons_of_mem _ hjm))]
    exact handleLine_device_id i.env s i.line (hj i (List.mem_cons_self i t))

/-! ## Claim C1 -/

/-- C1, counterexample: the claim quantifies over every JSON line carrying
an Ans or an Id key, but a line whose object also carries an OTA key is
captured by the OTA status branch (line 417) before the answer branch
(line 435) is reached: the payload below starts with a brace, parses, has
an Id key, yet process_answer is never invoked (and the OTA success
counter moves instead). -/
theorem C1_cex :
    pyStartsWith "\x7b\x22OTA\x22:\x22OTA_SUCCESS\x22,\x22Id\x22:5\x7d" "\x7b" = true ∧
    hasKey [("OTA", PyVal.vstr "OTA_SUCCESS"), ("Id", PyVal.vint 5)] "Id" = true ∧
    (handleLine ⟨0, [], .transportError, "0"⟩ HState.start
      ⟨"\x7b\x22OTA\x22:\x22OTA_SUCCESS\x22,\x22Id\x22:5\x7d",
       some [("OTA", PyVal.vstr "OTA_SUCCESS"), ("Id", PyVal.vint 5)]⟩).2.answerCalls = [] ∧
    (handleLine ⟨0, [], .transportError, "0"⟩ HState.start
      ⟨"\x7b\x22OTA\x22:\x22OTA_SUCCESS\x22,\x22Id\x22:5\x7d",
       some [("OTA", PyVal.vstr "OTA_SUCCESS"), ("Id", PyVal.vint 5)]⟩).2.posts = [] := by
  decide

/-- C1, as amended: for every inbound line whose text contains no pairing
marker substring, which begins with a brace, parses as JSON, and whose
object carries an Ans or Id key but neither an OTA nor a CONFIG key, the
handler invokes process_answer exactly once, and that invocation issues
exactly one HTTP POST whose body is the inbound payload with the session
id injected under sessionId, the deviceId query parameter being appended
to the endpoint exactly when the payload carries a Did key. -/
theorem C1_amended (env : Env) (s : HState) (line : Line) (p : Payload)
    (hmk : noPairingText line.raw) (hst : pyStartsWith line.raw "\x7b" = true)
    (hjs : line.json = some p)
    (hai : hasKey p "Ans" = true ∨ hasKey p "Id" = true)
    (hota : hasKey p "OTA" = false) (hcfg : hasKey p "CONFIG" = false) :
    (handleLine env s line).2.answerCalls = [p] ∧
    (handleLine env s line).2.posts =
      [⟨answerUrl p, setKey p "sessionId" (.vstr env.sessionId)⟩] ∧
    (hasKey p "Did" = true →
      answerUrl p = API_URL ++ "?deviceId=" ++ pyStr (pyGet p "Did")) ∧
    (hasKey p "Did" = false → answerUrl p = API_URL) := by
  rw [handleLine_json env s line p hmk hst hjs]
  have hor : (hasKey p "Ans" || hasKey p "Id") = true := by
    rcases hai with h | h <;> simp [h]
  unfold jsonDispatch
  simp only [hota, hcfg, hor, Bool.false_eq_true, if_false, if_true]
  refine ⟨by trivial, ?_, ?_, ?_⟩
  · exact process_answer_posts env.sessionId p env.http _
  · intro hd; simp [answerUrl, hd]
  · intro hd; simp [answerUrl, hd]

/-- C1, witness for the amended theorem at a concrete answer frame. -/
theorem C1_amended_w :
    (handleLine ⟨7, [], .response 200 (some [("code", PyVal.vint 200)]), "sess"⟩
      HState.start
      ⟨"\x7b\x22Ans\x22:1,\x22Id\x22:5,\x22Did\x22:9\x7d",
       some [("Ans", PyVal.vint 1), ("Id", PyVal.vint 5), ("Did", PyVal.vint 9)]⟩).2.posts =
      [⟨answerUrl [("Ans", PyVal.vint 1), ("Id", PyVal.vint 5), ("Did", PyVal.vint 9)],
        setKey [("Ans", PyVal.vint 1), ("Id", PyVal.vint 5), ("Did", PyVal.vint 9)]
          "sessionId" (.vstr "sess")⟩] ∧
    answerUrl [("Ans", PyVal.vint 1), ("Id", PyVal.vint 5), ("Did", PyVal.vint 9)] =
      API_URL ++ "?deviceId=" ++
        pyStr (pyGet [("Ans", PyVal.vint 1), ("Id", PyVal.vint 5), ("Did", PyVal.vint 9)] "Did") := by
  have h := C1_amended ⟨7, [], .response 200 (some [("code", PyVal.vint 200)]), "sess"⟩
    HState.start
    ⟨"\x7b\x22Ans\x22:1,\x22Id\x22:5,\x22Did\x22:9\x7d",
     some [("Ans", PyVal.vint 1), ("Id", PyVal.vint 5), ("Did", PyVal.vint 9)]⟩
    [("Ans", PyVal.vint 1), ("Id", PyVal.vint 5), ("Did", PyVal.vint 9)]
    (by decide) (by decide) rfl (Or.inl (by decide)) (by decide) (by decide)
  exact ⟨h.2.1, h.2.2.1 (by decide)⟩

/-! ## Claim C3 -/

/-- C3: evaluation at the failing input.  A pairing exchange is driven to
its end at time 100 (a pairing request line, then a Type-Y line answered
with N by the operator), which leaves pairing mode and stamps the cooldown
at 105.  The claim (and the comments at lines 220 and 397-399) say a
pairing-marker line arriving inside [100, 105) is discarded with no state
change, but the cooldown test at line 221 is guarded by in_pairing_mode,
which was just reset: the same pairing-request marker arriving at time
101 re-enters pairing mode as a fresh detection. -/
theorem C3_bug_eval :
    (runLines HState.start
      [⟨⟨100, [], .transportError, "0"⟩, ⟨"PAIRING REQUEST RECEIVED!", none⟩⟩,
       ⟨⟨100, [some "N"], .transportError, "0"⟩, ⟨"Type 'Y' to accept", none⟩⟩]).in_pairing_mode
        = false ∧
    (runLines HState.start
      [⟨⟨100, [], .transportError, "0"⟩, ⟨"PAIRING REQUEST RECEIVED!", none⟩⟩,
       ⟨⟨100, [some "N"], .transportError, "0"⟩, ⟨"Type 'Y' to accept", none⟩⟩]).pairing_cooldown_until
        = 105 ∧
    (runLines HState.start
      [⟨⟨100, [], .transportError, "0"⟩, ⟨"PAIRING REQUEST RECEIVED!", none⟩⟩,
       ⟨⟨100, [some "N"], .transportError, "0"⟩, ⟨"Type 'Y' to accept", none⟩⟩,
       ⟨⟨101, [], .transportError, "0"⟩, ⟨"PAIRING REQUEST RECEIVED!", none⟩⟩]).in_pairing_mode
        = true := by
  decide

/-! ## Claim C4 -/

/-- C4, counterexample: the operator prompt is issued after only a
pairing-request marker line, with no Device ID line, no MAC line and no
mother-confirmation line ever seen — the intermediate phases were skipped
and both collected fields are still empty when the prompt fires. -/
theorem C4_cex :
    (runLines HState.start
      [⟨⟨100, [], .transportError, "0"⟩, ⟨"PAIRING REQUEST RECEIVED!", none⟩⟩]).pairing_device_id
        = none ∧
    (runLines HState.start
      [⟨⟨100, [], .transportError, "0"⟩, ⟨"PAIRING REQUEST RECEIVED!", none⟩⟩]).pairing_mac
        = none ∧
    (handleLine ⟨100, [some "N"], .transportError, "0"⟩
      (runLines HState.start
        [⟨⟨100, [], .transportError, "0"⟩, ⟨"PAIRING REQUEST RECEIVED!", none⟩⟩])
      ⟨"Type 'Y' to accept", none⟩).2.promptIssued = true := by
  decide

/-- C4, as amended: the operator prompt is reached only downstream of a
pairing-request marker line — any trace from the initial state that makes
an iteration issue the prompt contains an earlier line with the marker —
but the intermediate Device ID, MAC and mother-confirmation phases are
not required: while pairing mode is active, any Type-Y line issues the
prompt, even with every earlier collection phase skipped. -/
theorem C4_amended (inputs : List Input) (env : Env) (line : Line)
    (h : (handleLine env (runLines HState.start inputs) line).2.promptIssued = true) :
    ∃ i ∈ inputs, pyIn "PAIRING REQUEST RECEIVED" i.line.raw = true := by
  by_contra hc
  push_neg at hc
  have hall : ∀ i ∈ inputs, pyIn "PAIRING REQUEST RECEIVED" i.line.raw = false := by
    intro i hi
    simpa using hc i hi
  have hmode := runLines_mode_origin inputs HState.start rfl hall
  have hfalse := handleLine_prompt_mode env (runLines HState.start inputs) line hmode
  rw [hfalse] at h
  exact Bool.false_ne_true h

/-- C4, witness: the amended theorem applied to the one-marker trace. -/
theorem C4_amended_w :
    ∃ i ∈ [(⟨⟨100, [], .transportError, "0"⟩,
             ⟨"PAIRING REQUEST RECEIVED!", none⟩⟩ : Input)],
      pyIn "PAIRING REQUEST RECEIVED" i.line.raw = true :=
  C4_amended
    [⟨⟨100, [], .transportError, "0"⟩, ⟨"PAIRING REQUEST RECEIVED!", none⟩⟩]
    ⟨100, [some "N"], .transportError, "0"⟩ ⟨"Type 'Y' to accept", none⟩
    (by decide)

/-! ## Claim C2 -/

/-- C2, counterexample: on the trigger-file path of monitor_devices a
well-formed trigger with an open port dispatches successfully, but the
ota_updates counter moves by 2, not by 1: initiate_wifi_ota bumps it at
line 157 and monitor_devices bumps it again at line 697. -/
theorem C2_cex :
    hasKey [("device_id", PyVal.vint 7), ("firmware", PyVal.vstr "http://x/fw.bin")]
      "device_id" = true ∧
    hasKey [("device_id", PyVal.vint 7), ("firmware", PyVal.vstr "http://x/fw.bin")]
      "firmware" = true ∧
    (processTriggerFile [("COM56", 1)]
      (some [("device_id", PyVal.vint 7), ("firmware", PyVal.vstr "http://x/fw.bin")])
      Stats.start).1.ota_updates = 2 := by
  decide

/-- C2, as amended: a direct initiate_wifi_ota call on a registered port
returns success and bumps the ota_updates counter by exactly 1, leaving
every other counter unchanged; on an unregistered port it returns failure
with every counter and the port untouched; but a dispatch reached through
the supervisor trigger-file path bumps ota_updates by exactly 2 (once
inside initiate_wifi_ota, once more in monitor_devices). -/
theorem C2_amended :
    (∀ (ports : SerialPorts) (did fw : PyVal) (port : String) (stats : Stats) (h : Nat),
       alistLookup ports port = some h →
         (initiate_wifi_ota ports did fw port stats).2.2 = true ∧
         (initiate_wifi_ota ports did fw port stats).1 =
           { stats with ota_updates := stats.ota_updates + 1 }) ∧
    (∀ (ports : SerialPorts) (did fw : PyVal) (port : String) (stats : Stats),
       alistLookup ports port = none →
         initiate_wifi_ota ports did fw port stats = (stats, [], false)) ∧
    (∀ (q : String × Nat) (rest : SerialPorts) (cmd : Payload) (stats : Stats),
       hasKey cmd "device_id" = true → hasKey cmd "firmware" = true →
         (processTriggerFile (q :: rest) (some cmd) stats).1.ota_updates =
           stats.ota_updates + 2) := by
  refine ⟨?_, ?_, ?_⟩
  · intro ports did fw port stats h hl
    unfold initiate_wifi_ota
    rw [hl]
    exact ⟨rfl, rfl⟩
  · intro ports did fw port stats hl
    unfold initiate_wifi_ota
    rw [hl]
  · intro q rest cmd stats h1 h2
    unfold processTriggerFile
    simp only [h1, h2, Bool.and_self, if_true]
    unfold initiate_wifi_ota
    simp [alistLookup]

/-- C2, witness for the amended theorem at concrete ports and commands. -/
theorem C2_amended_w :
    (initiate_wifi_ota [("COM56", 1)] (PyVal.vint 7) (PyVal.vstr "u") "COM56"
      Stats.start).2.2 = true ∧
    initiate_wifi_ota [] (PyVal.vint 7) (PyVal.vstr "u") "COM56" Stats.start =
      (Stats.start, [], false) ∧
    (processTriggerFile [("COM56", 1)]
      (some [("device_id", PyVal.vint 7), ("firmware", PyVal.vstr "u")])
      Stats.start).1.ota_updates = Stats.start.ota_updates + 2 :=
  ⟨(C2_amended.1 [("COM56", 1)] (PyVal.vint 7) (PyVal.vstr "u") "COM56"
      Stats.start 1 (by decide)).1,
   C2_amended.2.1 [] (PyVal.vint 7) (PyVal.vstr "u") "COM56" Stats.start (by decide),
   C2_amended.2.2 ("COM56", 1) [] [("device_id", PyVal.vint 7), ("firmware", PyVal.vstr "u")]
      Stats.start (by decide) (by decide)⟩

/-! ## Claim C9 -/

/-- C9: per trigger file and supervisor cycle, a file that parses is
removed (line 683) before any dispatch happens — with a port available the
event order is read, remove, dispatch; with no port it is read, remove,
log — and a malformed file takes the except branch (lines 703-708), which
logs, removes the file and returns normally with every counter unchanged,
so the supervisor loop keeps running. -/
theorem C9_trigger :
    (∀ (q : String × Nat) (rest : SerialPorts) (cmd : Payload) (stats : Stats),
       hasKey cmd "device_id" = true → hasKey cmd "firmware" = true →
         (processTriggerFile (q :: rest) (some cmd) stats).2.1 =
           [.fileRead, .fileRemoved,
            .dispatched (pyGet cmd "device_id") (pyGet cmd "firmware") q.1]) ∧
    (∀ (cmd : Payload) (stats : Stats),
       hasKey cmd "device_id" = true → hasKey cmd "firmware" = true →
         (processTriggerFile [] (some cmd) stats).2.1 =
           [.fileRead, .fileRemoved, .logNoPorts] ∧
         (processTriggerFile [] (some cmd) stats).1 = stats) ∧
    (∀ (ports : SerialPorts) (stats : Stats),
       processTriggerFile ports none stats = (stats, [.logError, .fileRemoved], [])) := by
  refine ⟨?_, ?_, ?_⟩
  · intro q rest cmd stats h1 h2
    unfold processTriggerFile
    simp [h1, h2]
  · intro cmd stats h1 h2
    unfold processTriggerFile
    simp [h1, h2]
  · intro ports stats
    rfl

/-- C9, witness at a concrete well-formed file and a malformed file. -/
theorem C9_trigger_w :
    (processTriggerFile [("COM56", 1)]
      (some [("device_id", PyVal.vint 7), ("firmware", PyVal.vstr "u")])
      Stats.start).2.1 =
      [.fileRead, .fileRemoved, .dispatched (PyVal.vint 7) (PyVal.vstr "u") "COM56"] ∧
    processTriggerFile [("COM56", 1)] none Stats.start =
      (Stats.start, [.logError, .fileRemoved], []) := by
  have h1 := C9_trigger.1 ("COM56", 1) []
    [("device_id", PyVal.vint 7), ("firmware", PyVal.vstr "u")] Stats.start
    (by decide) (by decide)
  have h2 := C9_trigger.2.2 [("COM56", 1)] Stats.start
  exact ⟨by rw [h1]; decide, h2⟩

/-! ## Claim C5 -/

/-- C5, counterexample: the claim says device_id is assigned while
processing an earlier OTA, CONFIG or answer frame, and that a pairing flow
on a handler that processed such a frame earlier builds the
SET_WIFI_CONFIG frame with the stale id.  But an OTA status frame does not
assign the handler-local device_id (handle_wifi_ota_status has its own
local): after processing the OTA frame with Did 3 below and accepting a
pairing with a WiFi credential update, the construction at line 385 still
raises (error caught, pairing mode left dangling) and the only write is
the raw Y response — no SET_WIFI_CONFIG frame with the stale id 3. -/
theorem C5_cex :
    hasKey [("OTA", PyVal.vstr "OTA_SUCCESS"), ("Did", PyVal.vint 3)] "OTA" = true ∧
    (runLines HState.start
      [⟨⟨1, [], .transportError, "0"⟩,
        ⟨"\x7b\x22OTA\x22:\x22OTA_SUCCESS\x22,\x22Did\x22:3\x7d",
         some [("OTA", PyVal.vstr "OTA_SUCCESS"), ("Did", PyVal.vint 3)]⟩⟩,
       ⟨⟨2, [], .transportError, "0"⟩,
        ⟨"PAIRING REQUEST RECEIVED!", none⟩⟩]).device_id = none ∧
    (handleLine
      ⟨3, [some "Y", some "N", some "N", some "Y", some "myssid", some "mypw"],
       .transportError, "0"⟩
      (runLines HState.start
        [⟨⟨1, [], .transportError, "0"⟩,
          ⟨"\x7b\x22OTA\x22:\x22OTA_SUCCESS\x22,\x22Did\x22:3\x7d",
           some [("OTA", PyVal.vstr "OTA_SUCCESS"), ("Did", PyVal.vint 3)]⟩⟩,
         ⟨⟨2, [], .transportError, "0"⟩,
          ⟨"PAIRING REQUEST RECEIVED!", none⟩⟩])
      ⟨"Type 'Y' to accept", none⟩).2.errorCaught = true ∧
    (handleLine
      ⟨3, [some "Y", some "N", some "N", some "Y", some "myssid", some "mypw"],
       .transportError, "0"⟩
      (runLines HState.start
        [⟨⟨1, [], .transportError, "0"⟩,
          ⟨"\x7b\x22OTA\x22:\x22OTA_SUCCESS\x22,\x22Did\x22:3\x7d",
           some [("OTA", PyVal.vstr "OTA_SUCCESS"), ("Did", PyVal.vint 3)]⟩⟩,
         ⟨⟨2, [], .transportError, "0"⟩,
          ⟨"PAIRING REQUEST RECEIVED!", none⟩⟩])
      ⟨"Type 'Y' to accept", none⟩).2.writes = [Frame.raw "Y"] := by
  decide

/-- C5, as amended: the SET_WIFI_CONFIG frame takes Did from the
handler-local device_id, assigned only while processing an earlier CONFIG
or answer JSON frame (not an OTA frame) in the same handler invocation;
for every trace without such a frame the local stays unassigned, so an
accepted pairing flow reaching the WiFi credential step raises an
unbound-local error, caught by the per-iteration handler, and writes no
SET_WIFI_CONFIG frame; when such a frame was processed earlier, Did
carries that stale value rather than the id collected in the current
handshake. -/
theorem C5_amended :
    (∀ (inputs : List Input),
       (∀ i ∈ inputs, i.line.json = none ∨ ∃ p, i.line.json = some p ∧
          hasKey p "CONFIG" = false ∧ hasKey p "Ans" = false ∧ hasKey p "Id" = false) →
       (runLines HState.start inputs).device_id = none) ∧
    (∀ (now : Nat) (s : HState) (s1 s2 : String), s1 ≠ "" → s2 ≠ "" →
       ((s.device_id = none →
          (pairingPrompt now [some "Y", some "N", some "N", some "Y", some s1, some s2]
            s).2.errorCaught = true ∧
          (pairingPrompt now [some "Y", some "N", some "N", some "Y", some s1, some s2]
            s).2.writes = [Frame.raw "Y"] ∧
          (pairingPrompt now [some "Y", some "N", some "N", some "Y", some s1, some s2]
            s).1 = s) ∧
        (∀ dv, s.device_id = some dv →
          (pairingPrompt now [some "Y", some "N", some "N", some "Y", some s1, some s2]
            s).2.errorCaught = false ∧
          (pairingPrompt now [some "Y", some "N", some "N", some "Y", some s1, some s2]
            s).2.writes =
            [Frame.raw "Y",
             Frame.jsonF [("CONFIG_CMD", .vstr "SET_WIFI_CONFIG"), ("Did", dv),
                          ("SSID", .vstr (pyStrip s1)),
                          ("Password", .vstr (pyStrip s2))]]))) := by
  constructor
  · intro inputs hj
    rw [runLines_device_id inputs HState.start hj]
    rfl
  · intro now s s1 s2 h1 h2
    have e1 : truthy (some s1) = true := by simp [truthy, h1]
    have e2 : truthy (some s2) = true := by simp [truthy, h2]
    have eY : truthy (some "Y") = true := by decide
    have eYY : yesish (some "Y") = true := by decide
    have eN : yesish (some "N") = false := by decide
    have eResp : pyUpper (pyStrip "Y") = "Y" := by decide
    have key : acceptedFlow s [some "N", some "N", some "Y", some s1, some s2] =
        wifiStep s.device_id [some "Y", some s1, some s2] [] := by
      simp [acceptedFlow, takeInput, eN]
    constructor
    · intro hd
      have w : wifiStep s.device_id [some "Y", some s1, some s2] [] = ([], true) := by
        rw [hd]; simp [wifiStep, takeInput, eYY, e1, e2]
      have pp : pairingPrompt now
          [some "Y", some "N", some "N", some "Y", some s1, some s2] s =
          (s, ⟨true, [Frame.raw "Y"], [], [], [], true⟩) := by
        simp [pairingPrompt, takeInput, eY, eResp, key, w]
      rw [pp]
      exact ⟨rfl, rfl, rfl⟩
    · intro dv hd
      have w : wifiStep s.device_id [some "Y", some s1, some s2] [] =
          ([Frame.jsonF [("CONFIG_CMD", .vstr "SET_WIFI_CONFIG"), ("Did", dv),
                         ("SSID", .vstr (pyStrip s1)),
                         ("Password", .vstr (pyStrip s2))]], false) := by
        rw [hd]; simp [wifiStep, takeInput, eYY, e1, e2]
      have pp : pairingPrompt now
          [some "Y", some "N", some "N", some "Y", some s1, some s2] s =
          ({ s with in_pairing_mode := false, pairing_cooldown_until := now + 5,
                    pairing_device_id := none, pairing_mac := none },
           ⟨true,
            [Frame.raw "Y",
             Frame.jsonF [("CONFIG_CMD", .vstr "SET_WIFI_CONFIG"), ("Did", dv),
                          ("SSID", .vstr (pyStrip s1)),
                          ("Password", .vstr (pyStrip s2))]],
            [], [], [], false⟩) := by
        simp [pairingPrompt, takeInput, eY, eResp, key, w]
      rw [pp]
      exact ⟨rfl, rfl⟩

/-- C5, witness for the amended theorem: a trace of one non-JSON line
leaves device_id unassigned, and the accepted WiFi sub-prompt from the
initial state then aborts with the caught unbound-local error. -/
theorem C5_amended_w :
    (runLines HState.start
      [⟨⟨1, [], .transportError, "0"⟩, ⟨"boot banner", none⟩⟩]).device_id = none ∧
    (pairingPrompt 3 [some "Y", some "N", some "N", some "Y", some "myssid", some "mypw"]
      HState.start).2.errorCaught = true :=
  ⟨C5_amended.1 [⟨⟨1, [], .transportError, "0"⟩, ⟨"boot banner", none⟩⟩]
     (by
       intro i hi
       rw [List.mem_singleton] at hi
       subst hi
       exact Or.inl rfl),
   ((C5_amended.2 3 HState.start "myssid" "mypw" (by decide) (by decide)).1 rfl).1⟩

/-! ## Claim C6 -/

/-- C6, counterexample: the claim says the response Id is the original
terminal id whenever the Id key is present; but the code tests against
the sentinel string unknown, so a payload whose Id is literally that
string is treated as absent and the backend id is used instead. -/
theorem C6_cex :
    hasKey [("Id", PyVal.vstr "unknown"), ("Did", PyVal.vint 7)] "Id" = true ∧
    send_device_response [("Id", PyVal.vstr "unknown"), ("Did", PyVal.vint 7)]
      [("id", PyVal.vint 9), ("code", PyVal.vint 200)] =
      [("Id", PyVal.vint 9), ("c", PyVal.vint 200), ("Did", PyVal.vint 7)] ∧
    send_device_response [("Id", PyVal.vstr "unknown"), ("Did", PyVal.vint 7)]
      [("id", PyVal.vint 9), ("code", PyVal.vint 200)] ≠
      [("Id", PyVal.vstr "unknown"), ("c", PyVal.vint 200), ("Did", PyVal.vint 7)] := by
  decide

/-- C6, as amended: send_device_response is a pure function of the
original payload and the backend reply; the frame is Id, c, Did in that
order, where Id is the original terminal id when the key is present with
a value other than the sentinel string unknown, and otherwise the
backend-supplied id (default 0); c is the backend code (default 0); Did
is the original device id (default 0). -/
theorem C6_amended (orig api : Payload) :
    (∀ tid, alistLookup orig "Id" = some tid → tid ≠ PyVal.vstr "unknown" →
       send_device_response orig api =
         [("Id", tid), ("c", (alistLookup api "code").getD (PyVal.vint 0)),
          ("Did", (alistLookup orig "Did").getD (PyVal.vint 0))]) ∧
    (alistLookup orig "Id" = none →
       send_device_response orig api =
         [("Id", (alistLookup api "id").getD (PyVal.vint 0)),
          ("c", (alistLookup api "code").getD (PyVal.vint 0)),
          ("Did", (alistLookup orig "Did").getD (PyVal.vint 0))]) := by
  constructor
  · intro tid hl hne
    unfold send_device_response pyGetD
    rw [hl]
    simp [hne]
  · intro hl
    unfold send_device_response pyGetD
    rw [hl]
    simp

/-- C6, witness: the concrete example of the claim, derived from the
amended theorem. -/
theorem C6_amended_w :
    send_device_response [("Id", PyVal.vint 5), ("Did", PyVal.vint 7)]
      [("code", PyVal.vint 200)] =
      [("Id", PyVal.vint 5), ("c", PyVal.vint 200), ("Did", PyVal.vint 7)] := by
  have h := (C6_amended [("Id", PyVal.vint 5), ("Did", PyVal.vint 7)]
    [("code", PyVal.vint 200)]).1 (PyVal.vint 5) (by decide) (by decide)
  rw [h]
  decide

/-! ## Claim C7 -/

/-- C7: for every relay attempt whose HTTP POST returns a non-200 status
or fails with a transport error, the error counter moves by exactly 1,
answers_processed is unchanged, no response frame is written back to the
port, and exactly one POST was attempted (no retry). -/
theorem C7_relay_errors (sid : String) (p : Payload) (out : HttpOutcome) (st : Stats)
    (h : out = .transportError ∨ ∃ code body, out = .response code body ∧ code ≠ 200) :
    (process_answer sid p out st).1.errors = st.errors + 1 ∧
    (process_answer sid p out st).1.answers_processed = st.answers_processed ∧
    (process_answer sid p out st).2.frames = [] ∧
    (process_answer sid p out st).2.posts =
      [⟨answerUrl p, setKey p "sessionId" (.vstr sid)⟩] := by
  rcases h with h | ⟨code, body, h, hc⟩
  · subst h
    exact ⟨rfl, rfl, rfl, rfl⟩
  · subst h
    unfold process_answer
    simp [hc]

/-- C7, witness at a concrete 500 response. -/
theorem C7_relay_errors_w :
    (process_answer "0" [("Id", PyVal.vint 5)] (.response 500 none) Stats.start).1.errors =
      Stats.start.errors + 1 ∧
    (process_answer "0" [("Id", PyVal.vint 5)] (.response 500 none) Stats.start).2.frames
      = [] :=
  (fun h => ⟨h.1, h.2.2.1⟩)
    (C7_relay_errors "0" [("Id", PyVal.vint 5)] (.response 500 none) Stats.start
      (Or.inr ⟨500, none, rfl, by decide⟩))

/-! ## Claim C8 -/

/-- C8, counterexample: the claim says an unrecognized OTA value is logged
and ignored; the if/elif chain of handle_wifi_ota_status has no else
branch, so the frame below is ignored with every counter unchanged but
nothing at all is logged. -/
theorem C8_cex :
    (handle_wifi_ota_status Stats.start
      [("OTA", PyVal.vstr "OTA_REBOOT"), ("Did", PyVal.vint 7)]).2 = [] ∧
    (handle_wifi_ota_status Stats.start
      [("OTA", PyVal.vstr "OTA_REBOOT"), ("Did", PyVal.vint 7)]).1 = Stats.start := by
  decide

/-- C8, as amended: for every decoded JSON frame carrying an OTA key,
value OTA_SUCCESS bumps the success counter by exactly 1, leaves every
other counter unchanged and logs the success; value OTA_ERROR bumps the
failure counter by exactly 1, leaves the rest unchanged and logs the
carried message; any unrecognized value is silently ignored — no log
entry, no counter change; and the tracker path never writes a frame,
never posts and never re-dispatches. -/
theorem C8_amended (stats : Stats) (p : Payload) :
    (pyGet p "OTA" = PyVal.vstr "OTA_SUCCESS" →
       handle_wifi_ota_status stats p =
         ({ stats with ota_successes := stats.ota_successes + 1 },
          [.otaSuccess (pyGet p "Did")])) ∧
    (pyGet p "OTA" = PyVal.vstr "OTA_ERROR" →
       handle_wifi_ota_status stats p =
         ({ stats with ota_failures := stats.ota_failures + 1 },
          [.otaError (pyGet p "Did") (pyGetD p "Msg" (.vstr ""))])) ∧
    (pyGet p "OTA" ≠ PyVal.vstr "OTA_STARTING" →
     pyGet p "OTA" ≠ PyVal.vstr "OTA_DOWNLOADING" →
     pyGet p "OTA" ≠ PyVal.vstr "OTA_FLASHING" →
     pyGet p "OTA" ≠ PyVal.vstr "OTA_SUCCESS" →
     pyGet p "OTA" ≠ PyVal.vstr "OTA_ERROR" →
       handle_wifi_ota_status stats p = (stats, [])) ∧
    (∀ (env : Env) (s : HState), hasKey p "OTA" = true →
       (jsonDispatch env s p).2.writes = [] ∧ (jsonDispatch env s p).2.posts = [] ∧
       (jsonDispatch env s p).2.answerCalls = []) := by
  refine ⟨?_, ?_, ?_, ?_⟩
  · intro h
    simp [handle_wifi_ota_status, h]
  · intro h
    simp [handle_wifi_ota_status, h]
  · intro t1 t2 t3 t4 t5
    simp [handle_wifi_ota_status, t1, t2, t3, t4, t5]
  · intro env s hk
    unfold jsonDispatch
    simp only [hk, if_true]
    exact ⟨trivial, trivial, trivial⟩

/-- C8, witness: the success branch at concrete counters. -/
theorem C8_amended_w :
    handle_wifi_ota_status ⟨1, 2, 3, 4, 5⟩
      [("OTA", PyVal.vstr "OTA_SUCCESS"), ("Did", PyVal.vint 7)] =
      (⟨1, 2, 3, 5, 5⟩, [.otaSuccess (PyVal.vint 7)]) := by
  have h := (C8_amended ⟨1, 2, 3, 4, 5⟩
    [("OTA", PyVal.vstr "OTA_SUCCESS"), ("Did", PyVal.vint 7)]).1 (by decide)
  rw [h]
  decide

/-! ## Claim C10 -/

/-- Removing a key removes every binding for it. -/
theorem alistLookup_removeKey {α : Type} (m : List (String × α)) (k : String) :
    alistLookup (removeKey m k) k = none := by
  induction m with
  | nil => rfl
  | cons q t ih =>
    unfold removeKey
    by_cases h : q.1 = k
    · simp [h, ih]
    · simp [alistLookup, h, ih]

/-- Overwriting in place yields the new handle on lookup. -/
theorem alistLookup_map_set (m : SerialPorts) (port : String) (h : Nat)
    (hs : (alistLookup m port).isSome = true) :
    alistLookup (m.map (fun q => if q.1 = port then (port, h) else q)) port = some h := by
  induction m with
  | nil => simp [alistLookup] at hs
  | cons q t ih =>
    by_cases hq : q.1 = port
    · simp [List.map, hq, alistLookup]
    · have hs2 : (alistLookup t port).isSome = true := by
        simpa [alistLookup, hq] using hs
      simp [List.map, hq, alistLookup, ih hs2]

/-- Appending a fresh binding yields the new handle on lookup. -/
theorem alistLookup_append_new (m : SerialPorts) (port : String) (h : Nat)
    (hn : alistLookup m port = none) :
    alistLookup (m ++ [(port, h)]) port = some h := by
  induction m with
  | nil => simp [alistLookup]
  | cons q t ih =>
    by_cases hq : q.1 = port
    · rw [alistLookup] at hn
      simp [hq] at hn
    · have hn2 : alistLookup t port = none := by simpa [alistLookup, hq] using hn
      simp [alistLookup, hq, ih hn2]

/-- After a dict assignment the port maps to the assigned handle. -/
theorem alistLookup_setPort (m : SerialPorts) (port : String) (h : Nat) :
    alistLookup (setPort m port h) port = some h := by
  unfold setPort
  by_cases hs : (alistLookup m port).isSome = true
  · rw [if_pos hs]
    exact alistLookup_map_set m port h hs
  · have hn : alistLookup m port = none := by
      cases hx : alistLookup m port
      · rfl
      · rw [hx] at hs; simp at hs
    rw [if_neg hs]
    exact alistLookup_append_new m port h hn

/-- The finally block always leaves the port unregistered. -/
theorem finallyCleanup_lookup (m : SerialPorts) (port : String) :
    alistLookup (finallyCleanup m port).1 port = none := by
  unfold finallyCleanup
  cases hx : alistLookup m port
  · simp only [hx]
  · simp only [hx]
    exact alistLookup_removeKey m port

/-- C10: however a handle_device task terminates — normal exit, an escaped
exception, or cancellation at an await point (the port open, the line
read, the operator prompt or the HTTP call), and whether or not the port
open itself succeeded — after the finally block of lines 449-457 the port
is no longer registered in serial_ports, and when the open had succeeded
the registered handle is exactly the one closed. -/
theorem C10_cleanup (m : SerialPorts) (port : String) (res : OpenResult)
    (t : Termination) :
    alistLookup (handlerRun m port res t).1 port = none ∧
    (∀ h, res = .opened h → (handlerRun m port res t).2 = [h]) := by
  constructor
  · cases res <;> cases t <;>
      simp only [handlerRun] <;> exact finallyCleanup_lookup _ port
  · intro h hres
    subst hres
    cases t <;> simp [handlerRun, finallyCleanup, alistLookup_setPort]

/-- C10, witness: a registered port, opened with a fresh handle and then
cancelled, ends up deregistered with that handle closed. -/
theorem C10_cleanup_w :
    alistLookup (handlerRun [("COM1", 5)] "COM1" (.opened 9) .cancelledAtAwait).1 "COM1"
      = none ∧
    (handlerRun [("COM1", 5)] "COM1" (.opened 9) .cancelledAtAwait).2 = [9] :=
  ⟨(C10_cleanup [("COM1", 5)] "COM1" (.opened 9) .cancelledAtAwait).1,
   (C10_cleanup [("COM1", 5)] "COM1" (.opened 9) .cancelledAtAwait).2 9 rfl⟩

end Esp
